import Mathlib

/-!
# Capture media binding of the Odin Unreal SDK

A shallow embedding of `Source/Odin/Private/OdinCaptureMedia.cpp`.

* A `UOdinCaptureMedia` object is a record of its member fields.
* Pointers are `Option Nat` (`none` is `nullptr`); what a capture object
  answers at the time of a call is read through a `CaptureEnv`.
* Every call into a collaborator (the native `odin_*` functions, the capture
  object, the room, the task system, the log) is recorded as an `Event`, in
  program order.  What a native function returns is an argument of the
  embedded member function.
* Machine integers: `int32` members are `Int`; the casts `(uint32_t)` and
  `(uint8_t)` are `% 2 ^ 32` and `% 2 ^ 8`.
-/

namespace Odin

/-- What a `UAudioCapture` object answers when it is queried. -/
structure UAudioCapture where
  SampleRate : Int
  NumChannels : Int
  IsValidLowLevel : Bool
deriving DecidableEq, Repr

/-- The capture objects behind the capture pointers, at the time of a call. -/
abbrev CaptureEnv := Nat → UAudioCapture

/-- The member fields of `UOdinCaptureMedia` that the source file touches. -/
structure UOdinCaptureMedia where
  audio_capture_ : Option Nat
  audio_generator_handle_ : Option Nat
  stream_handle_ : Nat
  stream_sample_rate_ : Int
  stream_num_channels_ : Int
  bIsBeingReset : Bool
  connected_room_ : Option Nat
deriving DecidableEq, Repr

/-- The lines written with `UE_LOG` in the source file. -/
inductive LogLine where
  | audioCaptureNull
  | initializing (sample_rate channels : Int)
  | incompatible (stream capture : Int)
  | missingRoom
  | missingCapture
  | resetError (code : Nat)
  | bindingNew
deriving DecidableEq, Repr

/-- The calls a member function makes into its collaborators. -/
inductive Event where
  | UE_LOG (line : LogLine)
  | odin_media_stream_destroy (handle : Nat)
  | odin_audio_stream_create (sample_rate channel_count : Nat) (ret : Nat)
  | odin_audio_push_data (handle : Nat) (InAudio : Nat) (NumSamples : Int)
  | odin_room_add_media (room_handle media_handle : Nat) (ret : Nat)
  | AddGeneratorDelegate (capture : Nat) (ret : Nat)
  | RemoveGeneratorDelegate (capture : Nat) (handle : Option Nat)
  | AsyncTask
  | NewObject (ref : Nat)
  | UnbindCaptureMedia (room : Nat) (media : Nat)
  | BindCaptureMedia (room : Nat) (media : Option Nat)
deriving DecidableEq, Repr

/-- The calls into the native Odin library. -/
def Event.isNative : Event → Bool
  | .odin_media_stream_destroy _ => true
  | .odin_audio_stream_create _ _ _ => true
  | .odin_audio_push_data _ _ _ => true
  | .odin_room_add_media _ _ _ => true
  | _ => false

/-- The native calls of a trace, in order. -/
def nativeCalls (es : List Event) : List Event := es.filter Event.isNative

/-- The handles passed to `odin_media_stream_destroy`, in order. -/
def destroyedHandles (es : List Event) : List Nat :=
  es.filterMap (fun e =>
    match e with
    | .odin_media_stream_destroy h => some h
    | _ => none)

/-- The values returned by `odin_audio_stream_create`, in order. -/
def createdHandles (es : List Event) : List Nat :=
  es.filterMap (fun e =>
    match e with
    | .odin_audio_stream_create _ _ r => some r
    | _ => none)

/-- The handles that `odin_audio_push_data` was called with, in order. -/
def pushedHandles (es : List Event) : List Nat :=
  es.filterMap (fun e =>
    match e with
    | .odin_audio_push_data h _ _ => some h
    | _ => none)

/-- Modelled from the spec: the header with the member initialisers is not in
src. A freshly constructed binding has no capture source, no subscription, no
stream handle (identifier zero), the default format 48000 Hz and 1 channel, a
cleared being-reset flag and no room. -/
def UOdinCaptureMedia.fresh : UOdinCaptureMedia :=
  { audio_capture_ := none
    audio_generator_handle_ := none
    stream_handle_ := 0
    stream_sample_rate_ := 48000
    stream_num_channels_ := 1
    bIsBeingReset := false
    connected_room_ := none }

/-- Modelled from the spec: `SetMediaHandle` of the base class `UOdinMediaBase`
is not in src; it stores the stream handle identifier. -/
def SetMediaHandle (handle : Nat) (self : UOdinCaptureMedia) : UOdinCaptureMedia :=
  { self with stream_handle_ := handle }

/-- Modelled from the spec: `GetMediaHandle` of the base class `UOdinMediaBase`
is not in src; it reads the stream handle identifier. -/
def GetMediaHandle (self : UOdinCaptureMedia) : Nat := self.stream_handle_

/-- `UOdinCaptureMedia::SetRoom`. -/
def SetRoom (connected_room : Option Nat) (self : UOdinCaptureMedia) : UOdinCaptureMedia :=
  { self with connected_room_ := connected_room }

/-- `UOdinCaptureMedia::RemoveRoom`. -/
def RemoveRoom (self : UOdinCaptureMedia) : UOdinCaptureMedia :=
  { self with connected_room_ := none }

/-- `UOdinCaptureMedia::SetAudioCapture`. `createRet` is what
`odin_audio_stream_create` returns and `delegateRet` what
`AddGeneratorDelegate` returns. The registered lambda is `sampleCallback`. -/
def SetAudioCapture (env : CaptureEnv) (createRet delegateRet : Nat)
    (audio_capture : Option Nat) (self : UOdinCaptureMedia) :
    UOdinCaptureMedia × List Event :=
  let ev0 : List Event :=
    if audio_capture.isNone then [Event.UE_LOG LogLine.audioCaptureNull] else []
  let s1 := { self with audio_capture_ := audio_capture }
  let (s2, ev1) : UOdinCaptureMedia × List Event :=
    if s1.stream_handle_ ≠ 0 then
      (SetMediaHandle 0 s1, [Event.odin_media_stream_destroy s1.stream_handle_])
    else (s1, [])
  let s3 := { s2 with stream_sample_rate_ := 48000, stream_num_channels_ := 1 }
  let s4 :=
    match audio_capture with
    | some c =>
      { s3 with stream_sample_rate_ := (env c).SampleRate
                stream_num_channels_ := (env c).NumChannels }
    | none => s3
  let ev2 : List Event :=
    [Event.UE_LOG (LogLine.initializing s4.stream_sample_rate_ s4.stream_num_channels_),
     Event.odin_audio_stream_create (s4.stream_sample_rate_ % 2 ^ 32).toNat
       (s4.stream_num_channels_ % 2 ^ 8).toNat createRet]
  let s5 := { s4 with stream_handle_ := createRet }
  match audio_capture with
  | some c =>
    if (env c).IsValidLowLevel then
      ({ s5 with audio_generator_handle_ := some delegateRet },
        ev0 ++ ev1 ++ ev2 ++ [Event.AddGeneratorDelegate c delegateRet])
    else (s5, ev0 ++ ev1 ++ ev2)
  | none => (s5, ev0 ++ ev1 ++ ev2)

/-- `UOdinCaptureMedia::HandleInputDeviceChanges`, up to the submission of the
task; the body of the task is `recoveryTask`. -/
def HandleInputDeviceChanges (self : UOdinCaptureMedia) : UOdinCaptureMedia × List Event :=
  ({ self with bIsBeingReset := true }, [Event.AsyncTask])

/-- The lambda `fp` that `SetAudioCapture` registers with the capture object.
`mismatch` is the capture pointer when the test of the second `if` holds. -/
def sampleCallback (env : CaptureEnv) (InAudio : Nat) (NumSamples : Int)
    (self : UOdinCaptureMedia) : UOdinCaptureMedia × List Event :=
  if self.bIsBeingReset then (self, [])
  else
    let mismatch : Option Nat :=
      self.audio_capture_.filter (fun c =>
        decide (self.stream_sample_rate_ ≠ (env c).SampleRate)
          || decide (self.stream_num_channels_ ≠ (env c).NumChannels))
    match mismatch with
    | some c =>
      let r := HandleInputDeviceChanges self
      (r.1, Event.UE_LOG (LogLine.incompatible self.stream_sample_rate_ (env c).SampleRate)
        :: r.2)
    | none =>
      if self.stream_handle_ ≠ 0 then
        (self, [Event.odin_audio_push_data self.stream_handle_ InAudio NumSamples])
      else (self, [])

/-- `UOdinCaptureMedia::Reset`. -/
def Reset (self : UOdinCaptureMedia) : UOdinCaptureMedia × List Event :=
  let s1 :=
    if self.audio_capture_ ≠ none then
      { self with audio_capture_ := none, audio_generator_handle_ := none }
    else self
  if s1.stream_handle_ ≠ 0 then
    ({ s1 with stream_handle_ := 0 }, [Event.odin_media_stream_destroy s1.stream_handle_])
  else (s1, [])

/-- What `ResetOdinStream` leaves behind: the object, the returned code, the calls. -/
structure ResetOutcome where
  state : UOdinCaptureMedia
  ret : Nat
  events : List Event
deriving DecidableEq, Repr

/-- `UOdinCaptureMedia::ResetOdinStream`. `destroyRet` is what
`odin_media_stream_destroy` returns. The scoped lock has no effect on a
sequential run. -/
def ResetOdinStream (destroyRet : Nat) (self : UOdinCaptureMedia) : ResetOutcome :=
  let ev0 : List Event :=
    match self.audio_capture_ with
    | some c => [Event.RemoveGeneratorDelegate c self.audio_generator_handle_]
    | none => []
  let s1 := { self with audio_generator_handle_ := none }
  if s1.stream_handle_ ≠ 0 then
    { state := { s1 with stream_handle_ := 0 }
      ret := destroyRet
      events := ev0 ++ [Event.odin_media_stream_destroy s1.stream_handle_] }
  else
    { state := { s1 with bIsBeingReset := false }
      ret := 0
      events := ev0 }

/-- `UOdinCaptureMedia::BeginDestroy`: `Reset()`, then the engine's
`Super::BeginDestroy()`, which touches none of the fields above. -/
def BeginDestroy (self : UOdinCaptureMedia) : UOdinCaptureMedia × List Event :=
  Reset self

/-- Modelled from the spec: `UOdinRoom` is not in src. The attributes the
recovery accesses are the native session handle and the set of bound capture
bindings. -/
structure UOdinRoom where
  room_handle_ : Nat
  capture_medias_ : List Nat
deriving DecidableEq, Repr

/-- Modelled from the spec: `UOdinRoom::RoomHandle` is not in src; the room
handle accessor. -/
def UOdinRoom.RoomHandle (room : UOdinRoom) : Nat := room.room_handle_

/-- Modelled from the spec: `UOdinRoom::UnbindCaptureMedia` is not in src; the
binding is taken out of the room's set of bound bindings. -/
def UOdinRoom.UnbindCaptureMedia (media : Nat) (room : UOdinRoom) : UOdinRoom :=
  { room with capture_medias_ := room.capture_medias_.filter (fun m => decide (m ≠ media)) }

/-- Modelled from the spec: `UOdinRoom::BindCaptureMedia` is not in src; the
room records the binding as bound (a null pointer is no binding). -/
def UOdinRoom.BindCaptureMedia (media : Option Nat) (room : UOdinRoom) : UOdinRoom :=
  match media with
  | some m => { room with capture_medias_ := m :: room.capture_medias_ }
  | none => room

/-- Modelled from the spec: `UOdinFunctionLibrary::Odin_CreateMedia` is not in
src; it constructs a brand-new capture binding (at the address `newRef`) from
the capture source, that is, a fresh object on which `SetAudioCapture` runs. -/
def Odin_CreateMedia (env : CaptureEnv) (createRet delegateRet newRef : Nat)
    (audioCapture : Option Nat) : Option (Nat × UOdinCaptureMedia) × List Event :=
  let r := SetAudioCapture env createRet delegateRet audioCapture UOdinCaptureMedia.fresh
  (some (newRef, r.1), Event.NewObject newRef :: r.2)

/-- What the native layer and the object system return during one run of the
recovery task. -/
structure TaskReturns where
  destroyRet : Nat
  createRet : Nat
  delegateRet : Nat
  newRef : Nat
  addMediaRet : Nat
deriving DecidableEq, Repr

/-- What one run of the recovery task leaves behind. -/
structure TaskOutcome where
  self : UOdinCaptureMedia
  rooms : Nat → Option UOdinRoom
  NewCaptureMedia : Option (Nat × UOdinCaptureMedia)
  events : List Event

/-- The closure that `HandleInputDeviceChanges` submits with `AsyncTask`.
`this` is the address of the old binding, `rooms` the live rooms (a weak room
pointer is valid when it is set and its room is live), `odin_is_error` the
predicate of the native header. Past the first test `roomPointer` is a live
room, so `roomPointer ? roomPointer->RoomHandle() : 0` reads its handle. -/
def recoveryTask (odin_is_error : Nat → Bool) (env : CaptureEnv) (rets : TaskReturns)
    (this : Nat) (rooms : Nat → Option UOdinRoom) (self : UOdinCaptureMedia) : TaskOutcome :=
  match self.connected_room_.bind (fun r => (rooms r).map (fun room => (r, room))) with
  | none =>
    { self := self, rooms := rooms, NewCaptureMedia := none
      events := [Event.UE_LOG LogLine.missingRoom] }
  | some (r, room) =>
    match self.audio_capture_ with
    | none =>
      { self := self, rooms := rooms, NewCaptureMedia := none
        events := [Event.UE_LOG LogLine.missingCapture] }
    | some c =>
      let capturePointer := some c
      let room1 := room.UnbindCaptureMedia this
      let reset := ResetOdinStream rets.destroyRet self
      let created := Odin_CreateMedia env rets.createRet rets.delegateRet rets.newRef capturePointer
      let NewCaptureMedia := created.1
      let room_handle := room1.RoomHandle
      let media_handle :=
        match NewCaptureMedia with
        | some m => GetMediaHandle m.2
        | none => 0
      let result := rets.addMediaRet
      let ev := [Event.UnbindCaptureMedia r this] ++ reset.events ++ created.2
        ++ [Event.odin_room_add_media room_handle media_handle result]
      if odin_is_error result then
        { self := reset.state
          rooms := Function.update rooms r (some room1)
          NewCaptureMedia := NewCaptureMedia
          events := ev ++ [Event.UE_LOG (LogLine.resetError result)] }
      else
        { self := reset.state
          rooms := Function.update rooms r
            (some (room1.BindCaptureMedia (NewCaptureMedia.map (fun m => m.1))))
          NewCaptureMedia := NewCaptureMedia
          events := ev ++ [Event.BindCaptureMedia r (NewCaptureMedia.map (fun m => m.1)),
            Event.UE_LOG LogLine.bindingNew] }

/-! ## Sequences of callback invocations -/

/-- One invocation of the sample callback: what the capture objects report at
that time, the buffer and the frame count. -/
abbrev Call := CaptureEnv × Nat × Int

/-- The binding after a sequence of callback invocations, nothing else
running in between. -/
def callbacksState : List Call → UOdinCaptureMedia → UOdinCaptureMedia
  | [], s => s
  | c :: cs, s => callbacksState cs (sampleCallback c.1 c.2.1 c.2.2 s).1

/-- The calls made by a sequence of callback invocations, in order. -/
def callbacksTrace : List Call → UOdinCaptureMedia → List Event
  | [], _ => []
  | c :: cs, s =>
    (sampleCallback c.1 c.2.1 c.2.2 s).2 ++ callbacksTrace cs (sampleCallback c.1 c.2.1 c.2.2 s).1

/-! ## The sequential step relation of one binding -/

/-- One operation on a binding, with what the collaborators return during it. -/
inductive Step where
  | SetAudioCapture (env : CaptureEnv) (createRet delegateRet : Nat) (audio_capture : Option Nat)
  | Reset
  | ResetOdinStream (destroyRet : Nat)
  | BeginDestroy
  | sampleCallback (env : CaptureEnv) (InAudio : Nat) (NumSamples : Int)

/-- The binding after one operation and the calls the operation made. -/
def step (s : UOdinCaptureMedia) : Step → UOdinCaptureMedia × List Event
  | .SetAudioCapture env createRet delegateRet audio_capture =>
    SetAudioCapture env createRet delegateRet audio_capture s
  | .Reset => Reset s
  | .ResetOdinStream destroyRet =>
    ((ResetOdinStream destroyRet s).state, (ResetOdinStream destroyRet s).events)
  | .BeginDestroy => BeginDestroy s
  | .sampleCallback env InAudio NumSamples => sampleCallback env InAudio NumSamples s

/-- The binding after a sequence of operations and all calls made, in order. -/
def run (s0 : UOdinCaptureMedia) (steps : List Step) : UOdinCaptureMedia × List Event :=
  steps.foldl (fun acc st => ((step acc.1 st).1, acc.2 ++ (step acc.1 st).2)) (s0, [])

/-- What holds of the current binding `cur` and the calls `t` made so far in
every run: no handle was destroyed twice, a stored non-zero handle was created
and not destroyed, every destroyed handle is a non-zero created handle, and no
handle destroyed in a first part of the trace is pushed to in the rest. -/
def HandleInv (cur : UOdinCaptureMedia) (t : List Event) : Prop :=
  (destroyedHandles t).Nodup ∧
  (cur.stream_handle_ ≠ 0 →
    cur.stream_handle_ ∉ destroyedHandles t ∧ cur.stream_handle_ ∈ createdHandles t) ∧
  (∀ h ∈ destroyedHandles t, h ∈ createdHandles t ∧ h ≠ 0) ∧
  (∀ a b, t = a ++ b → ∀ h ∈ destroyedHandles a, h ∉ pushedHandles b)

/-! ## Example states -/

/-- Every capture object reports 48000 Hz, 1 channel. -/
def env48k : CaptureEnv := fun _ => ⟨48000, 1, true⟩

/-- Every capture object reports 44100 Hz, 2 channels. -/
def env44k : CaptureEnv := fun _ => ⟨44100, 2, true⟩

/-- A fresh binding after `SetAudioCapture` with capture object 1 at 48000 Hz,
1 channel; the native layer returned stream handle 5 and the capture object
subscription 9. -/
def exampleBound : UOdinCaptureMedia :=
  (SetAudioCapture env48k 5 9 (some 1) UOdinCaptureMedia.fresh).1

/-- The binding `exampleBound` after a callback that saw 44100 Hz, 2 channels. -/
def exampleFlagged : UOdinCaptureMedia := (sampleCallback env44k 3 512 exampleBound).1

/-- The binding `exampleBound` after `SetAudioCapture(nullptr)`; the native
layer returned stream handle 6. -/
def exampleDetached : UOdinCaptureMedia :=
  (SetAudioCapture env48k 6 0 none exampleBound).1

/-- The operations of a run in which a source is attached, samples flow, the
source is attached again in another format, samples flow, the source changes
format, the stream is reset and the binding is destroyed. -/
def exampleSteps : List Step :=
  [Step.SetAudioCapture env48k 5 9 (some 1), Step.sampleCallback env48k 3 512,
   Step.SetAudioCapture env44k 6 10 (some 1), Step.sampleCallback env44k 4 256,
   Step.sampleCallback env48k 3 512, Step.ResetOdinStream 0, Step.Reset, Step.BeginDestroy]

/-- Modelled from the spec: `odin_is_error` of the native header is not in src;
status code zero is success, a non-zero status code is an error. -/
def exampleIsError (code : Nat) : Bool := decide (code ≠ 0)

/-- Room 2 is live, has native handle 11 and holds the bindings 100 and 101. -/
def exampleRooms : Nat → Option UOdinRoom :=
  fun r => if r = 2 then some { room_handle_ := 11, capture_medias_ := [100, 101] } else none

/-- No room is live. -/
def exampleNoRooms : Nat → Option UOdinRoom := fun _ => none

/-- The binding `exampleBound`, connected to room 2. -/
def exampleInRoom : UOdinCaptureMedia := SetRoom (some 2) exampleBound

/-- A binding connected to room 2 whose `SetAudioCapture` got stream handle 0
from the native layer. -/
def exampleNoHandle : UOdinCaptureMedia :=
  SetRoom (some 2) (SetAudioCapture env48k 0 9 (some 1) UOdinCaptureMedia.fresh).1

/-- Return values for one run of the recovery task; add-media succeeds. -/
def exampleReturns : TaskReturns :=
  { destroyRet := 0, createRet := 6, delegateRet := 10, newRef := 102, addMediaRet := 0 }

/-- Return values for one run of the recovery task; add-media fails with code 3. -/
def exampleReturnsFail : TaskReturns :=
  { destroyRet := 0, createRet := 6, delegateRet := 10, newRef := 102, addMediaRet := 3 }

/-! ## The sample callback -/

/-- C1: the sample callback is a three-way case. (1) With the being-reset flag
set it makes no call and changes no field. (2) With the flag clear, a capture
source attached and its current sample rate or channel count different from
the negotiated one, it pushes nothing, sets the flag (and no other field) and
submits exactly one recovery task. (3) Otherwise it changes no field and makes
exactly one native push of (buffer, frame count) into the stream handle when
the handle is non-zero, and no call at all when the handle is zero. -/
theorem sampleCallback_three_way (env : CaptureEnv) (InAudio : Nat) (NumSamples : Int)
    (self : UOdinCaptureMedia) :
    (self.bIsBeingReset = true → sampleCallback env InAudio NumSamples self = (self, [])) ∧
    (self.bIsBeingReset = false →
      (∀ c, self.audio_capture_ = some c →
        (self.stream_sample_rate_ ≠ (env c).SampleRate
          ∨ self.stream_num_channels_ ≠ (env c).NumChannels) →
        (sampleCallback env InAudio NumSamples self).1 = { self with bIsBeingReset := true } ∧
        nativeCalls (sampleCallback env InAudio NumSamples self).2 = [] ∧
        (sampleCallback env InAudio NumSamples self).2.count Event.AsyncTask = 1) ∧
      ((self.audio_capture_ = none ∨ ∃ c, self.audio_capture_ = some c ∧
          self.stream_sample_rate_ = (env c).SampleRate ∧
          self.stream_num_channels_ = (env c).NumChannels) →
        (sampleCallback env InAudio NumSamples self).1 = self ∧
        (self.stream_handle_ ≠ 0 → (sampleCallback env InAudio NumSamples self).2 =
          [Event.odin_audio_push_data self.stream_handle_ InAudio NumSamples]) ∧
        (self.stream_handle_ = 0 → (sampleCallback env InAudio NumSamples self).2 = []))) := by
  obtain ⟨cap, tok, handle, rate, ch, flag, room⟩ := self
  refine ⟨fun h => by simp_all [sampleCallback], fun h => ⟨?_, ?_⟩⟩
  · intro c hc hne
    simp only at h hc hne
    subst h hc
    rcases hne with h1 | h1 <;>
      simp [sampleCallback, Option.filter, h1, HandleInputDeviceChanges, nativeCalls,
        Event.isNative]
  · intro hcase
    simp only at h hcase
    subst h
    rcases hcase with h1 | ⟨c, hc, h1, h2⟩
    · subst h1
      by_cases hh : handle = 0 <;> simp [sampleCallback, Option.filter, hh]
    · subst hc
      by_cases hh : handle = 0 <;> simp [sampleCallback, Option.filter, hh, h1, h2]

/-- C1 at three concrete bindings: a flagged binding, a binding whose source
changed to 44100 Hz and 2 channels, and a binding whose source still matches. -/
theorem sampleCallback_three_way_witness :
    sampleCallback env44k 3 512 exampleFlagged = (exampleFlagged, []) ∧
    ((sampleCallback env44k 3 512 exampleBound).1 = { exampleBound with bIsBeingReset := true } ∧
      nativeCalls (sampleCallback env44k 3 512 exampleBound).2 = [] ∧
      (sampleCallback env44k 3 512 exampleBound).2.count Event.AsyncTask = 1) ∧
    (sampleCallback env48k 3 512 exampleBound).2 = [Event.odin_audio_push_data 5 3 512] :=
  ⟨(sampleCallback_three_way env44k 3 512 exampleFlagged).1 (by decide),
   ((sampleCallback_three_way env44k 3 512 exampleBound).2 (by decide)).1 1 (by decide)
     (Or.inl (by decide)),
   (((sampleCallback_three_way env48k 3 512 exampleBound).2 (by decide)).2
     (Or.inr ⟨1, by decide, by decide, by decide⟩)).2.1 (by decide)⟩

/-- The three results the sample callback can have. -/
theorem sampleCallback_outcome (env : CaptureEnv) (InAudio : Nat) (NumSamples : Int)
    (self : UOdinCaptureMedia) :
    sampleCallback env InAudio NumSamples self = (self, []) ∨
    (self.bIsBeingReset = false ∧ ∃ l,
      sampleCallback env InAudio NumSamples self =
        ({ self with bIsBeingReset := true }, [Event.UE_LOG l, Event.AsyncTask])) ∨
    (self.bIsBeingReset = false ∧ self.stream_handle_ ≠ 0 ∧
      sampleCallback env InAudio NumSamples self =
        (self, [Event.odin_audio_push_data self.stream_handle_ InAudio NumSamples])) := by
  obtain ⟨cap, tok, handle, rate, ch, flag, room⟩ := self
  cases flag
  · cases hm : (Option.filter (fun c =>
        decide (rate ≠ (env c).SampleRate) || decide (ch ≠ (env c).NumChannels)) cap) with
    | none =>
      by_cases hh : handle = 0
      · left; simp only [sampleCallback, hm]; simp [hh]
      · right; right; simp only [sampleCallback, hm]; simp [hh]
    | some c =>
      right; left
      simp only [sampleCallback, hm]
      simp [HandleInputDeviceChanges]
  · left; simp [sampleCallback]

/-- With the being-reset flag set, a sequence of callback invocations makes no call. -/
theorem callbacksTrace_of_flag (calls : List Call) (s : UOdinCaptureMedia)
    (h : s.bIsBeingReset = true) : callbacksTrace calls s = [] := by
  induction calls with
  | nil => rfl
  | cons c cs ih =>
    have hs : sampleCallback c.1 c.2.1 c.2.2 s = (s, []) := by simp [sampleCallback, h]
    simp [callbacksTrace, hs, ih]

/-- A sequence of callback invocations submits at most one recovery task. -/
theorem callbacksTrace_count (calls : List Call) (s : UOdinCaptureMedia) :
    (callbacksTrace calls s).count Event.AsyncTask ≤ 1 := by
  induction calls generalizing s with
  | nil => simp [callbacksTrace]
  | cons c cs ih =>
    rcases sampleCallback_outcome c.1 c.2.1 c.2.2 s with h | ⟨_, l, h⟩ | ⟨_, _, h⟩
    · simpa [callbacksTrace, h] using ih s
    · have := callbacksTrace_of_flag cs { s with bIsBeingReset := true } rfl
      simp [callbacksTrace, h, this]
    · simpa [callbacksTrace, h] using ih s

/-- C3: in a sequence of sample callback invocations with nothing else of the
binding in between (the capture source may report anything at each
invocation), at most one recovery task is submitted in total, and from the
invocation that submits it onward no invocation pushes samples into the stream
handle. -/
theorem callbacks_single_recovery (self : UOdinCaptureMedia) (calls : List Call) :
    (callbacksTrace calls self).count Event.AsyncTask ≤ 1 ∧
    ∀ (pre post : List Call) (c : Call), calls = pre ++ c :: post →
      Event.AsyncTask ∈ (sampleCallback c.1 c.2.1 c.2.2 (callbacksState pre self)).2 →
      pushedHandles (callbacksTrace (c :: post) (callbacksState pre self)) = [] ∧
      (callbacksTrace post (callbacksState (pre ++ [c]) self)).count Event.AsyncTask = 0 := by
  refine ⟨callbacksTrace_count calls self, ?_⟩
  intro pre post c _ hmem
  have hstate : ∀ (xs ys : List Call) (s : UOdinCaptureMedia),
      callbacksState (xs ++ ys) s = callbacksState ys (callbacksState xs s) := by
    intro xs
    induction xs with
    | nil => intro ys s; rfl
    | cons x xs ih => intro ys s; simp [callbacksState, ih]
  rcases sampleCallback_outcome c.1 c.2.1 c.2.2 (callbacksState pre self) with
    h | ⟨_, l, h⟩ | ⟨_, _, h⟩
  · rw [h] at hmem; simp at hmem
  · have hrest := callbacksTrace_of_flag post
      { callbacksState pre self with bIsBeingReset := true } rfl
    refine ⟨?_, ?_⟩
    · simp [callbacksTrace, h, hrest, pushedHandles]
    · rw [hstate]
      simp [callbacksState, h, hrest]
  · rw [h] at hmem; simp at hmem

/-- C3 on a concrete run: the source changes format at the second invocation
and changes again later. -/
theorem callbacks_single_recovery_witness :
    pushedHandles (callbacksTrace [(env44k, 3, 512), (env48k, 3, 512), (env44k, 4, 256)]
      (callbacksState [(env48k, 3, 512)] exampleBound)) = [] ∧
    (callbacksTrace [(env48k, 3, 512), (env44k, 4, 256)]
      (callbacksState ([(env48k, 3, 512)] ++ [(env44k, 3, 512)]) exampleBound)).count
        Event.AsyncTask = 0 :=
  (callbacks_single_recovery exampleBound
    [(env48k, 3, 512), (env44k, 3, 512), (env48k, 3, 512), (env44k, 4, 256)]).2
    [(env48k, 3, 512)] [(env48k, 3, 512), (env44k, 4, 256)] (env44k, 3, 512) rfl (by decide)

/-! ## Attaching a capture source -/

/-- C4: after `SetAudioCapture(source)` the negotiated sample rate and channel
count are those the source reports when the source is non-null, and 48000 and
1 when it is null; they are the same whatever the binding held before. -/
theorem SetAudioCapture_negotiated (env : CaptureEnv) (createRet delegateRet : Nat)
    (audio_capture : Option Nat) (self : UOdinCaptureMedia) :
    (∀ c, audio_capture = some c →
      (SetAudioCapture env createRet delegateRet audio_capture self).1.stream_sample_rate_
        = (env c).SampleRate ∧
      (SetAudioCapture env createRet delegateRet audio_capture self).1.stream_num_channels_
        = (env c).NumChannels) ∧
    (audio_capture = none →
      (SetAudioCapture env createRet delegateRet audio_capture self).1.stream_sample_rate_
        = 48000 ∧
      (SetAudioCapture env createRet delegateRet audio_capture self).1.stream_num_channels_
        = 1) ∧
    (∀ (other : UOdinCaptureMedia) (createRet2 delegateRet2 : Nat),
      (SetAudioCapture env createRet2 delegateRet2 audio_capture other).1.stream_sample_rate_
        = (SetAudioCapture env createRet delegateRet audio_capture self).1.stream_sample_rate_ ∧
      (SetAudioCapture env createRet2 delegateRet2 audio_capture other).1.stream_num_channels_
        = (SetAudioCapture env createRet delegateRet audio_capture self).1.stream_num_channels_) := by
  have key : ∀ (s : UOdinCaptureMedia) (cr dr : Nat),
      ((SetAudioCapture env cr dr audio_capture s).1.stream_sample_rate_,
        (SetAudioCapture env cr dr audio_capture s).1.stream_num_channels_) =
      (match audio_capture with
        | some c => ((env c).SampleRate, (env c).NumChannels)
        | none => (48000, 1)) := by
    intro s cr dr
    cases audio_capture with
    | none => simp only [SetAudioCapture]
    | some c =>
      simp only [SetAudioCapture]
      split <;> rfl
  refine ⟨?_, ?_, ?_⟩
  · intro c hc
    have := key self createRet delegateRet
    rw [hc] at this ⊢
    exact ⟨congrArg Prod.fst this, congrArg Prod.snd this⟩
  · intro hc
    have := key self createRet delegateRet
    rw [hc] at this ⊢
    exact ⟨congrArg Prod.fst this, congrArg Prod.snd this⟩
  · intro other cr dr
    have h1 := key self createRet delegateRet
    have h2 := key other cr dr
    rw [← h1] at h2
    exact ⟨congrArg Prod.fst h2, congrArg Prod.snd h2⟩

/-- C4 at concrete inputs: a source at 44100 Hz and 2 channels on a binding
negotiated at 48000 Hz and 1 channel, and a null source on the same binding. -/
theorem SetAudioCapture_negotiated_witness :
    ((SetAudioCapture env44k 6 10 (some 1) exampleBound).1.stream_sample_rate_ = 44100 ∧
      (SetAudioCapture env44k 6 10 (some 1) exampleBound).1.stream_num_channels_ = 2) ∧
    ((SetAudioCapture env44k 6 10 none exampleBound).1.stream_sample_rate_ = 48000 ∧
      (SetAudioCapture env44k 6 10 none exampleBound).1.stream_num_channels_ = 1) :=
  ⟨(SetAudioCapture_negotiated env44k 6 10 (some 1) exampleBound).1 1 rfl,
   (SetAudioCapture_negotiated env44k 6 10 none exampleBound).2.1 rfl⟩

/-! ## Resetting the stream -/

/-- C7: `ResetOdinStream` leaves the stream handle identifier at zero and the
subscription token empty. With a non-zero handle on entry it calls native
destroy exactly once, on that handle, and returns what destroy returned; with
a zero handle it makes no native call and returns 0. A second call in a row
therefore returns 0 and makes no native call. -/
theorem ResetOdinStream_contract (destroyRet : Nat) (self : UOdinCaptureMedia) :
    (ResetOdinStream destroyRet self).state.stream_handle_ = 0 ∧
    (ResetOdinStream destroyRet self).state.audio_generator_handle_ = none ∧
    (self.stream_handle_ ≠ 0 →
      nativeCalls (ResetOdinStream destroyRet self).events
        = [Event.odin_media_stream_destroy self.stream_handle_] ∧
      (ResetOdinStream destroyRet self).ret = destroyRet) ∧
    (self.stream_handle_ = 0 →
      nativeCalls (ResetOdinStream destroyRet self).events = [] ∧
      (ResetOdinStream destroyRet self).ret = 0) ∧
    (∀ destroyRet2 : Nat,
      nativeCalls (ResetOdinStream destroyRet2 (ResetOdinStream destroyRet self).state).events
        = [] ∧
      (ResetOdinStream destroyRet2 (ResetOdinStream destroyRet self).state).ret = 0) := by
  have zero : ∀ (d : Nat) (s : UOdinCaptureMedia), s.stream_handle_ = 0 →
      nativeCalls (ResetOdinStream d s).events = [] ∧ (ResetOdinStream d s).ret = 0 := by
    intro d s hs
    cases hc : s.audio_capture_ <;>
      simp [ResetOdinStream, hs, hc, nativeCalls, Event.isNative]
  have hz : (ResetOdinStream destroyRet self).state.stream_handle_ = 0 := by
    by_cases hh : self.stream_handle_ = 0 <;> simp [ResetOdinStream, hh]
  refine ⟨hz, ?_, ?_, zero destroyRet self, fun d => zero d _ hz⟩
  · by_cases hh : self.stream_handle_ = 0 <;> simp [ResetOdinStream, hh]
  · intro hh
    cases hc : self.audio_capture_ <;>
      simp [ResetOdinStream, hh, hc, nativeCalls, Event.isNative]

/-- C7 on a binding that holds stream handle 5 and on a fresh binding. -/
theorem ResetOdinStream_contract_witness :
    (nativeCalls (ResetOdinStream 2 exampleBound).events = [Event.odin_media_stream_destroy 5] ∧
      (ResetOdinStream 2 exampleBound).ret = 2) ∧
    (nativeCalls (ResetOdinStream 2 UOdinCaptureMedia.fresh).events = [] ∧
      (ResetOdinStream 2 UOdinCaptureMedia.fresh).ret = 0) :=
  ⟨(ResetOdinStream_contract 2 exampleBound).2.2.1 (by decide),
   (ResetOdinStream_contract 2 UOdinCaptureMedia.fresh).2.2.2.1 rfl⟩

/-- C8 at a binding that holds stream handle 5 with the being-reset flag set
(reached by attaching a source and one callback that saw a changed format):
`ResetOdinStream` returns from inside the handle branch, before the statement
that clears the flag, and the flag is still true afterwards. -/
theorem ResetOdinStream_flag_survives :
    exampleFlagged.stream_handle_ = 5 ∧ exampleFlagged.bIsBeingReset = true ∧
    (ResetOdinStream 0 exampleFlagged).state.bIsBeingReset = true ∧
    ¬ (∀ (destroyRet : Nat) (self : UOdinCaptureMedia),
      (ResetOdinStream destroyRet self).state.bIsBeingReset = false) := by
  refine ⟨by decide, by decide, by decide, fun h => ?_⟩
  have := h 0 exampleFlagged
  revert this
  decide

/-- C9 at a binding with capture object 1 attached, subscription 9 and stream
handle 5, and at the same binding after `SetAudioCapture(nullptr)`:
`BeginDestroy` runs `Reset`, which destroys the handle without removing the
callback from the capture object, where `ResetOdinStream` removes it first;
and with no source attached `Reset` keeps the subscription token that
`ResetOdinStream` clears. -/
theorem BeginDestroy_differs_from_ResetOdinStream :
    (BeginDestroy exampleBound).2 = [Event.odin_media_stream_destroy 5] ∧
    (ResetOdinStream 0 exampleBound).events
      = [Event.RemoveGeneratorDelegate 1 (some 9), Event.odin_media_stream_destroy 5] ∧
    (BeginDestroy exampleDetached).1.audio_generator_handle_ = some 9 ∧
    (ResetOdinStream 0 exampleDetached).state.audio_generator_handle_ = none := by
  decide

/-! ## The recovery task -/

/-- C6: when the recovery task runs and the connected room is no longer valid
or the capture source is null, it only writes a log line: no new binding is
created, no native call is made, the rooms are unchanged, every field of the
old binding is unchanged, and the being-reset flag that
`HandleInputDeviceChanges` set is still true. -/
theorem recoveryTask_abort (odin_is_error : Nat → Bool) (env : CaptureEnv) (rets : TaskReturns)
    (this : Nat) (rooms : Nat → Option UOdinRoom) (self : UOdinCaptureMedia)
    (h : (∀ r, self.connected_room_ = some r → rooms r = none) ∨ self.audio_capture_ = none) :
    (recoveryTask odin_is_error env rets this rooms (HandleInputDeviceChanges self).1).NewCaptureMedia
      = none ∧
    (∃ l, (recoveryTask odin_is_error env rets this rooms (HandleInputDeviceChanges self).1).events
      = [Event.UE_LOG l]) ∧
    nativeCalls (recoveryTask odin_is_error env rets this rooms
      (HandleInputDeviceChanges self).1).events = [] ∧
    (recoveryTask odin_is_error env rets this rooms (HandleInputDeviceChanges self).1).rooms
      = rooms ∧
    (recoveryTask odin_is_error env rets this rooms (HandleInputDeviceChanges self).1).self
      = (HandleInputDeviceChanges self).1 ∧
    (recoveryTask odin_is_error env rets this rooms
      (HandleInputDeviceChanges self).1).self.bIsBeingReset = true := by
  obtain ⟨cap, tok, handle, rate, ch, flag, room⟩ := self
  simp only [HandleInputDeviceChanges] at h ⊢
  cases room with
  | none => simp [recoveryTask, nativeCalls, Event.isNative]
  | some r =>
    cases hr : rooms r with
    | none => simp [recoveryTask, hr, nativeCalls, Event.isNative]
    | some rm =>
      rcases h with h | h
      · have := h r rfl
        rw [hr] at this
        cases this
      · subst h
        simp [recoveryTask, hr, nativeCalls, Event.isNative]

/-- C6 on a binding whose room is gone. -/
theorem recoveryTask_abort_witness :
    (recoveryTask exampleIsError env44k exampleReturns 100 exampleNoRooms
      (HandleInputDeviceChanges exampleInRoom).1).NewCaptureMedia = none ∧
    (∃ l, (recoveryTask exampleIsError env44k exampleReturns 100 exampleNoRooms
      (HandleInputDeviceChanges exampleInRoom).1).events = [Event.UE_LOG l]) ∧
    nativeCalls (recoveryTask exampleIsError env44k exampleReturns 100 exampleNoRooms
      (HandleInputDeviceChanges exampleInRoom).1).events = [] ∧
    (recoveryTask exampleIsError env44k exampleReturns 100 exampleNoRooms
      (HandleInputDeviceChanges exampleInRoom).1).rooms = exampleNoRooms ∧
    (recoveryTask exampleIsError env44k exampleReturns 100 exampleNoRooms
      (HandleInputDeviceChanges exampleInRoom).1).self = (HandleInputDeviceChanges exampleInRoom).1 ∧
    (recoveryTask exampleIsError env44k exampleReturns 100 exampleNoRooms
      (HandleInputDeviceChanges exampleInRoom).1).self.bIsBeingReset = true :=
  recoveryTask_abort exampleIsError env44k exampleReturns 100 exampleNoRooms exampleInRoom
    (Or.inl (fun _ _ => rfl))

/-- C5: when the recovery task runs with a valid connected room and a non-null
capture source, then for every status of the add-media call: the old binding
is unbound from the room and `ResetOdinStream` is applied to it before the new
binding is created from the capture source, then add-media is called with the
room handle and the new stream handle; `BindCaptureMedia` is called, with the
new binding, when and only when the status is not an error. On an error the
room's bound bindings afterwards are the previous ones without the old binding
and without the new one; otherwise they are those without the old binding,
plus the new one. -/
theorem recoveryTask_rebuild (odin_is_error : Nat → Bool) (env : CaptureEnv) (rets : TaskReturns)
    (this r c : Nat) (room : UOdinRoom) (rooms : Nat → Option UOdinRoom)
    (self : UOdinCaptureMedia)
    (hroom : self.connected_room_ = some r) (hlive : rooms r = some room)
    (hcap : self.audio_capture_ = some c) (hnew : rets.newRef ∉ room.capture_medias_) :
    (recoveryTask odin_is_error env rets this rooms self).self
      = (ResetOdinStream rets.destroyRet self).state ∧
    (recoveryTask odin_is_error env rets this rooms self).NewCaptureMedia
      = some (rets.newRef,
          (SetAudioCapture env rets.createRet rets.delegateRet (some c)
            UOdinCaptureMedia.fresh).1) ∧
    (recoveryTask odin_is_error env rets this rooms self).events
      = Event.UnbindCaptureMedia r this :: (ResetOdinStream rets.destroyRet self).events
        ++ Event.NewObject rets.newRef ::
          (SetAudioCapture env rets.createRet rets.delegateRet (some c)
            UOdinCaptureMedia.fresh).2
        ++ [Event.odin_room_add_media room.room_handle_ rets.createRet rets.addMediaRet]
        ++ (if odin_is_error rets.addMediaRet then
              [Event.UE_LOG (LogLine.resetError rets.addMediaRet)]
            else [Event.BindCaptureMedia r (some rets.newRef), Event.UE_LOG LogLine.bindingNew]) ∧
    ((∃ m, Event.BindCaptureMedia r m ∈ (recoveryTask odin_is_error env rets this rooms self).events)
      ↔ odin_is_error rets.addMediaRet = false) ∧
    (odin_is_error rets.addMediaRet = true →
      ∃ after, (recoveryTask odin_is_error env rets this rooms self).rooms r = some after ∧
        after.room_handle_ = room.room_handle_ ∧
        ∀ x, x ∈ after.capture_medias_ ↔
          (x ∈ room.capture_medias_ ∧ x ≠ this ∧ x ≠ rets.newRef)) ∧
    (odin_is_error rets.addMediaRet = false →
      ∃ after, (recoveryTask odin_is_error env rets this rooms self).rooms r = some after ∧
        after.room_handle_ = room.room_handle_ ∧
        ∀ x, x ∈ after.capture_medias_ ↔
          (x = rets.newRef ∨ (x ∈ room.capture_medias_ ∧ x ≠ this))) := by
  obtain ⟨cap, tok, handle, rate, ch, flag, croom⟩ := self
  simp only at hroom hcap
  subst hroom hcap
  have hbind : (some r : Option Nat).bind (fun q => (rooms q).map (fun rm => (q, rm)))
      = some (r, room) := by simp [hlive]
  have hhandle : (SetAudioCapture env rets.createRet rets.delegateRet (some c)
      UOdinCaptureMedia.fresh).1.stream_handle_ = rets.createRet := by
    simp only [SetAudioCapture]
    split <;> rfl
  have hnoBind : ∀ m, Event.BindCaptureMedia r m ∉
      (SetAudioCapture env rets.createRet rets.delegateRet (some c) UOdinCaptureMedia.fresh).2 := by
    intro m
    simp only [SetAudioCapture]
    split <;> simp [UOdinCaptureMedia.fresh]
  have hnoBind2 : ∀ m, Event.BindCaptureMedia r m ∉
      (ResetOdinStream rets.destroyRet
        { audio_capture_ := some c, audio_generator_handle_ := tok, stream_handle_ := handle,
          stream_sample_rate_ := rate, stream_num_channels_ := ch, bIsBeingReset := flag,
          connected_room_ := some r }).events := by
    intro m
    by_cases hh : handle = 0 <;> simp [ResetOdinStream, hh]
  cases herr : odin_is_error rets.addMediaRet
  · refine ⟨?_, ?_, ?_, ?_, ?_, ?_⟩
    · simp [recoveryTask, hbind, herr]
    · simp [recoveryTask, hbind, herr, Odin_CreateMedia]
    · simp [recoveryTask, hbind, herr, Odin_CreateMedia, GetMediaHandle, hhandle,
        UOdinRoom.RoomHandle, UOdinRoom.UnbindCaptureMedia]
    · simp only [recoveryTask, hbind, herr]
      simp only [iff_true]
      exact ⟨some rets.newRef, by simp [Odin_CreateMedia]⟩
    · intro h; cases h
    · intro _
      refine ⟨(room.UnbindCaptureMedia this).BindCaptureMedia (some rets.newRef), ?_, ?_, ?_⟩
      · simp [recoveryTask, hbind, herr, Odin_CreateMedia]
      · simp [UOdinRoom.BindCaptureMedia, UOdinRoom.UnbindCaptureMedia]
      · intro x
        simp [UOdinRoom.BindCaptureMedia, UOdinRoom.UnbindCaptureMedia]
  · refine ⟨?_, ?_, ?_, ?_, ?_, ?_⟩
    · simp [recoveryTask, hbind, herr]
    · simp [recoveryTask, hbind, herr, Odin_CreateMedia]
    · simp [recoveryTask, hbind, herr, Odin_CreateMedia, GetMediaHandle, hhandle,
        UOdinRoom.RoomHandle, UOdinRoom.UnbindCaptureMedia]
    · simp only [recoveryTask, hbind, herr]
      simp [Odin_CreateMedia, hnoBind, hnoBind2]
    · intro _
      refine ⟨room.UnbindCaptureMedia this, ?_, ?_, ?_⟩
      · simp [recoveryTask, hbind, herr]
      · simp [UOdinRoom.UnbindCaptureMedia]
      · intro x
        simp only [UOdinRoom.UnbindCaptureMedia, List.mem_filter, decide_eq_true_eq]
        constructor
        · rintro ⟨h1, h2⟩
          exact ⟨h1, h2, fun h3 => hnew (h3 ▸ h1)⟩
        · rintro ⟨h1, h2, _⟩
          exact ⟨h1, h2⟩
    · intro h; cases h

/-- C5 on a binding in room 2 (bindings 100 and 101 bound) whose rebuild gets
an error status from add-media: only binding 101 is left in the room. -/
theorem recoveryTask_rebuild_witness :
    ∃ after, (recoveryTask exampleIsError env44k exampleReturnsFail 100 exampleRooms
        exampleInRoom).rooms 2 = some after ∧
      after.room_handle_ = 11 ∧
      ∀ x, x ∈ after.capture_medias_ ↔ (x ∈ [100, 101] ∧ x ≠ 100 ∧ x ≠ 102) :=
  (recoveryTask_rebuild exampleIsError env44k exampleReturnsFail 100 2 1
    { room_handle_ := 11, capture_medias_ := [100, 101] } exampleRooms exampleInRoom
    rfl rfl rfl (by decide)).2.2.2.2.1 rfl

/-- C10, as stated, fails: on a binding whose stream handle is zero when the
task runs (the native layer had returned no stream), with a live room and a
capture source, `ResetOdinStream` inside the task clears the being-reset flag,
whether add-media then succeeds or fails. -/
theorem recovery_clears_flag_without_handle :
    (sampleCallback env44k 3 512 exampleNoHandle).1 = (HandleInputDeviceChanges exampleNoHandle).1 ∧
    (HandleInputDeviceChanges exampleNoHandle).1.bIsBeingReset = true ∧
    (recoveryTask exampleIsError env44k exampleReturns 100 exampleRooms
      (HandleInputDeviceChanges exampleNoHandle).1).self.bIsBeingReset = false ∧
    (recoveryTask exampleIsError env44k exampleReturnsFail 100 exampleRooms
      (HandleInputDeviceChanges exampleNoHandle).1).self.bIsBeingReset = false := by
  decide

/-- C10, amended: after `HandleInputDeviceChanges` has set the being-reset flag
and its task has run, the flag of the old binding is true when the recovery
aborted (room invalid or source null), for every value of the stream handle,
and true when the rebuild ran (with either add-media status) and the old
stream handle was non-zero at that time; when the rebuild ran (with either
add-media status) and the old stream handle was zero at that time, the flag is
false. -/
theorem recovery_flag_afterwards (odin_is_error : Nat → Bool) (env : CaptureEnv)
    (rets : TaskReturns) (this : Nat) (rooms : Nat → Option UOdinRoom)
    (self : UOdinCaptureMedia) :
    (((∀ r, self.connected_room_ = some r → rooms r = none) ∨ self.audio_capture_ = none) →
      (recoveryTask odin_is_error env rets this rooms
        (HandleInputDeviceChanges self).1).self.bIsBeingReset = true) ∧
    ((∃ r room, self.connected_room_ = some r ∧ rooms r = some room) →
      (∃ c, self.audio_capture_ = some c) → self.stream_handle_ ≠ 0 →
      (recoveryTask odin_is_error env rets this rooms
        (HandleInputDeviceChanges self).1).self.bIsBeingReset = true) ∧
    ((∃ r room, self.connected_room_ = some r ∧ rooms r = some room) →
      (∃ c, self.audio_capture_ = some c) → self.stream_handle_ = 0 →
      (recoveryTask odin_is_error env rets this rooms
        (HandleInputDeviceChanges self).1).self.bIsBeingReset = false) := by
  obtain ⟨cap, tok, handle, rate, ch, flag, croom⟩ := self
  simp only [HandleInputDeviceChanges]
  refine ⟨?_, ?_, ?_⟩
  · intro h
    cases croom with
    | none => simp [recoveryTask]
    | some r =>
      cases hr : rooms r with
      | none => simp [recoveryTask, hr]
      | some rm =>
        rcases h with h | h
        · have := h r rfl
          rw [hr] at this
          cases this
        · subst h
          simp [recoveryTask, hr]
  · rintro ⟨r, room, hr, hlive⟩ ⟨c, hc⟩ hh
    subst hr hc
    have hh2 : handle ≠ 0 := hh
    cases herr : odin_is_error rets.addMediaRet <;>
      simp [recoveryTask, hlive, herr, ResetOdinStream, hh2]
  · rintro ⟨r, room, hr, hlive⟩ ⟨c, hc⟩ hh
    subst hr hc hh
    cases herr : odin_is_error rets.addMediaRet <;>
      simp [recoveryTask, hlive, herr, ResetOdinStream]

/-- C10, amended, on a binding whose room is gone, on a binding with stream
handle 5 in a live room (add-media succeeding and failing), and on a binding
without a stream handle in a live room. -/
theorem recovery_flag_afterwards_witness :
    (recoveryTask exampleIsError env44k exampleReturns 100 exampleNoRooms
      (HandleInputDeviceChanges exampleInRoom).1).self.bIsBeingReset = true ∧
    (recoveryTask exampleIsError env44k exampleReturns 100 exampleRooms
      (HandleInputDeviceChanges exampleInRoom).1).self.bIsBeingReset = true ∧
    (recoveryTask exampleIsError env44k exampleReturnsFail 100 exampleRooms
      (HandleInputDeviceChanges exampleInRoom).1).self.bIsBeingReset = true ∧
    (recoveryTask exampleIsError env44k exampleReturns 100 exampleRooms
      (HandleInputDeviceChanges exampleNoHandle).1).self.bIsBeingReset = false :=
  ⟨(recovery_flag_afterwards exampleIsError env44k exampleReturns 100 exampleNoRooms
      exampleInRoom).1 (Or.inl (fun _ _ => rfl)),
   (recovery_flag_afterwards exampleIsError env44k exampleReturns 100 exampleRooms
      exampleInRoom).2.1 ⟨2, { room_handle_ := 11, capture_medias_ := [100, 101] }, rfl, rfl⟩
      ⟨1, rfl⟩ (by decide),
   (recovery_flag_afterwards exampleIsError env44k exampleReturnsFail 100 exampleRooms
      exampleInRoom).2.1 ⟨2, { room_handle_ := 11, capture_medias_ := [100, 101] }, rfl, rfl⟩
      ⟨1, rfl⟩ (by decide),
   (recovery_flag_afterwards exampleIsError env44k exampleReturns 100 exampleRooms
      exampleNoHandle).2.2 ⟨2, { room_handle_ := 11, capture_medias_ := [100, 101] }, rfl, rfl⟩
      ⟨1, rfl⟩ rfl⟩

/-! ## Handle lifetime over runs -/

theorem destroyedHandles_append (a b : List Event) :
    destroyedHandles (a ++ b) = destroyedHandles a ++ destroyedHandles b := by
  simp [destroyedHandles]

theorem createdHandles_append (a b : List Event) :
    createdHandles (a ++ b) = createdHandles a ++ createdHandles b := by
  simp [createdHandles]

theorem pushedHandles_append (a b : List Event) :
    pushedHandles (a ++ b) = pushedHandles a ++ pushedHandles b := by
  simp [pushedHandles]

/-- A run extended by one operation. -/
theorem run_snoc (s0 : UOdinCaptureMedia) (steps : List Step) (st : Step) :
    run s0 (steps ++ [st]) =
      ((step (run s0 steps).1 st).1, (run s0 steps).2 ++ (step (run s0 steps).1 st).2) := by
  simp [run, List.foldl_append]

/-- What one operation does with handles: either it destroys and creates
nothing, keeps the stored handle and pushes at most once, to the stored
non-zero handle; or it pushes nothing, destroys the stored handle when it is
non-zero, and stores zero or the handle it creates. -/
theorem step_shape (s : UOdinCaptureMedia) (st : Step) :
    (destroyedHandles (step s st).2 = [] ∧ createdHandles (step s st).2 = [] ∧
      (step s st).1.stream_handle_ = s.stream_handle_ ∧
      (pushedHandles (step s st).2 = [] ∨
        (pushedHandles (step s st).2 = [s.stream_handle_] ∧ s.stream_handle_ ≠ 0))) ∨
    (pushedHandles (step s st).2 = [] ∧
      ((destroyedHandles (step s st).2 = [] ∧ s.stream_handle_ = 0) ∨
        (destroyedHandles (step s st).2 = [s.stream_handle_] ∧ s.stream_handle_ ≠ 0)) ∧
      ((createdHandles (step s st).2 = [] ∧ (step s st).1.stream_handle_ = 0) ∨
        ∃ ret, createdHandles (step s st).2 = [ret] ∧ (step s st).1.stream_handle_ = ret)) := by
  cases st with
  | SetAudioCapture env createRet delegateRet audio_capture =>
    right
    by_cases hh : s.stream_handle_ = 0
    · cases audio_capture with
      | none =>
        simp [step, SetAudioCapture, hh, destroyedHandles, createdHandles, pushedHandles]
      | some c =>
        cases hv : (env c).IsValidLowLevel <;>
          simp [step, SetAudioCapture, hh, hv, destroyedHandles, createdHandles, pushedHandles]
    · cases audio_capture with
      | none =>
        simp [step, SetAudioCapture, hh, destroyedHandles, createdHandles, pushedHandles]
      | some c =>
        cases hv : (env c).IsValidLowLevel <;>
          simp [step, SetAudioCapture, hh, hv, destroyedHandles, createdHandles, pushedHandles]
  | Reset =>
    right
    by_cases hh : s.stream_handle_ = 0 <;> by_cases hc : s.audio_capture_ = none <;>
      simp [step, Reset, hh, hc, destroyedHandles, createdHandles, pushedHandles]
  | ResetOdinStream destroyRet =>
    right
    by_cases hh : s.stream_handle_ = 0 <;> cases hc : s.audio_capture_ <;>
      simp [step, ResetOdinStream, hh, hc, destroyedHandles, createdHandles, pushedHandles]
  | BeginDestroy =>
    right
    by_cases hh : s.stream_handle_ = 0 <;> by_cases hc : s.audio_capture_ = none <;>
      simp [step, BeginDestroy, Reset, hh, hc, destroyedHandles, createdHandles, pushedHandles]
  | sampleCallback env InAudio NumSamples =>
    left
    rcases sampleCallback_outcome env InAudio NumSamples s with h | ⟨_, l, h⟩ | ⟨_, hh, h⟩
    · simp [step, h, destroyedHandles, createdHandles, pushedHandles]
    · simp [step, h, destroyedHandles, createdHandles, pushedHandles]
    · simp [step, h, hh, destroyedHandles, createdHandles, pushedHandles]

/-- Pushes of a later part of a trace split in two. -/
theorem no_push_after_destroy_append (t ev : List Event)
    (hold : ∀ a b, t = a ++ b → ∀ h ∈ destroyedHandles a, h ∉ pushedHandles b)
    (hnew : ∀ h ∈ destroyedHandles t, h ∉ pushedHandles ev)
    (hself : ∀ a b, ev = a ++ b → ∀ h ∈ destroyedHandles a, h ∉ pushedHandles b) :
    ∀ a b, t ++ ev = a ++ b → ∀ h ∈ destroyedHandles a, h ∉ pushedHandles b := by
  intro a b hab h hmem
  rcases List.append_eq_append_iff.mp hab with ⟨a', ha, hb⟩ | ⟨c', ht, hb⟩
  · subst ha
    rw [destroyedHandles_append] at hmem
    rcases List.mem_append.mp hmem with h1 | h1
    · intro hp
      exact hnew h h1 (by rw [hb, pushedHandles_append]; exact List.mem_append_right _ hp)
    · exact hself a' b hb h h1
  · subst hb
    rw [pushedHandles_append]
    intro hp
    rcases List.mem_append.mp hp with h1 | h1
    · exact hold a c' ht h hmem h1
    · exact hnew h (by rw [ht, destroyedHandles_append]; exact List.mem_append_left _ hmem) h1

/-- One operation keeps the handle invariant, as long as the native layer
never returns a non-zero handle twice. -/
theorem HandleInv_step (cur : UOdinCaptureMedia) (t : List Event) (st : Step)
    (hinv : HandleInv cur t)
    (hfresh : ((createdHandles (t ++ (step cur st).2)).filter
      (fun h => decide (h ≠ 0))).Nodup) :
    HandleInv (step cur st).1 (t ++ (step cur st).2) := by
  obtain ⟨I1, I2, I3, I4⟩ := hinv
  rcases step_shape cur st with ⟨hd, hc, hh, hp⟩ | ⟨hp, hd, hc⟩
  · refine ⟨?_, ?_, ?_, ?_⟩
    · rw [destroyedHandles_append, hd, List.append_nil]; exact I1
    · rw [destroyedHandles_append, createdHandles_append, hd, hc, hh, List.append_nil,
        List.append_nil]
      exact I2
    · rw [destroyedHandles_append, createdHandles_append, hd, hc, List.append_nil,
        List.append_nil]
      exact I3
    · apply no_push_after_destroy_append t _ I4
      · intro h hmem
        rcases hp with hp | ⟨hp, hne⟩
        · rw [hp]; simp
        · rw [hp]
          intro hx
          rw [List.mem_singleton] at hx
          subst hx
          exact (I2 hne).1 hmem
      · intro a b hab h hmem
        have : destroyedHandles a ++ destroyedHandles b = [] := by
          rw [← destroyedHandles_append, ← hab, hd]
        rw [(List.append_eq_nil.mp this).1] at hmem
        simp at hmem
  · have hdest : ∀ h ∈ destroyedHandles (step cur st).2,
        h = cur.stream_handle_ ∧ cur.stream_handle_ ≠ 0 := by
      intro h hmem
      rcases hd with ⟨hd, _⟩ | ⟨hd, hne⟩
      · rw [hd] at hmem; simp at hmem
      · rw [hd, List.mem_singleton] at hmem; exact ⟨hmem, hne⟩
    have hdnodup : (destroyedHandles (step cur st).2).Nodup := by
      rcases hd with ⟨hd, _⟩ | ⟨hd, _⟩ <;> rw [hd] <;> simp
    have hI3 : ∀ h ∈ destroyedHandles (t ++ (step cur st).2), h ∈ createdHandles t ∧ h ≠ 0 := by
      intro h hmem
      rw [destroyedHandles_append] at hmem
      rcases List.mem_append.mp hmem with h1 | h1
      · exact I3 h h1
      · obtain ⟨he, hne⟩ := hdest h h1
        rw [he]
        exact ⟨(I2 hne).2, hne⟩
    refine ⟨?_, ?_, ?_, ?_⟩
    · rw [destroyedHandles_append, List.nodup_append]
      refine ⟨I1, hdnodup, ?_⟩
      intro h h1 h2
      obtain ⟨he, hne⟩ := hdest h h2
      rw [he] at h1
      exact (I2 hne).1 h1
    · intro hne
      rcases hc with ⟨_, hz⟩ | ⟨ret, hcr, hret⟩
      · exact absurd hz hne
      · rw [hret] at hne ⊢
        rw [createdHandles_append, hcr] at hfresh ⊢
        have hnot : ret ∉ createdHandles t := by
          intro hin
          rw [List.filter_append, List.nodup_append] at hfresh
          exact hfresh.2.2 (List.mem_filter.mpr ⟨hin, by simpa using hne⟩)
            (List.mem_filter.mpr ⟨by simp, by simpa using hne⟩)
        exact ⟨fun hin => hnot (hI3 ret hin).1, by simp⟩
    · intro h hmem
      rw [createdHandles_append]
      exact ⟨List.mem_append_left _ (hI3 h hmem).1, (hI3 h hmem).2⟩
    · apply no_push_after_destroy_append t _ I4
      · intro h _
        rw [hp]; simp
      · intro a b hab h _
        have : pushedHandles a ++ pushedHandles b = [] := by
          rw [← pushedHandles_append, ← hab, hp]
        rw [(List.append_eq_nil.mp this).2]
        simp

/-- Every run from a binding without a stream handle keeps the handle
invariant, as long as the native layer never returns a non-zero handle twice. -/
theorem HandleInv_run (s0 : UOdinCaptureMedia) (h0 : s0.stream_handle_ = 0) (steps : List Step) :
    ((createdHandles (run s0 steps).2).filter (fun h => decide (h ≠ 0))).Nodup →
    HandleInv (run s0 steps).1 (run s0 steps).2 := by
  induction steps using List.reverseRecOn with
  | nil =>
    intro _
    refine ⟨by simp [run, destroyedHandles], fun hne => absurd h0 hne,
      by simp [run, destroyedHandles], ?_⟩
    intro a b hab h hmem
    have hnil : a ++ b = [] := by simpa [run] using hab.symm
    rw [(List.append_eq_nil.mp hnil).1] at hmem
    simp [destroyedHandles] at hmem
  | append_singleton steps st ih =>
    intro hfresh
    rw [run_snoc] at hfresh ⊢
    have hpre : ((createdHandles (run s0 steps).2).filter (fun h => decide (h ≠ 0))).Nodup := by
      rw [createdHandles_append, List.filter_append] at hfresh
      exact hfresh.of_append_left
    exact HandleInv_step _ _ st (ih hpre) hfresh

/-- C2: over the sequential runs of one binding whose operations are
`SetAudioCapture`, `Reset`, `ResetOdinStream`, `BeginDestroy` and the sample
callback, started from a binding without a stream handle (as a freshly
constructed one is), and with a native create that returns zero or a handle it
never returned before: no handle is passed to native destroy twice, no handle
that was destroyed in a first part of the trace is pushed to afterwards, and
the stored identifier at the end is zero or a handle that was not destroyed. -/
theorem run_handle_lifetime (s0 : UOdinCaptureMedia) (steps : List Step)
    (h0 : s0.stream_handle_ = 0)
    (hfresh : ((createdHandles (run s0 steps).2).filter (fun h => decide (h ≠ 0))).Nodup) :
    (destroyedHandles (run s0 steps).2).Nodup ∧
    (∀ a b, (run s0 steps).2 = a ++ b → ∀ h ∈ destroyedHandles a, h ∉ pushedHandles b) ∧
    ((run s0 steps).1.stream_handle_ = 0 ∨
      (run s0 steps).1.stream_handle_ ∉ destroyedHandles (run s0 steps).2) := by
  obtain ⟨I1, I2, _, I4⟩ := HandleInv_run s0 h0 steps hfresh
  refine ⟨I1, I4, ?_⟩
  by_cases hz : (run s0 steps).1.stream_handle_ = 0
  · exact Or.inl hz
  · exact Or.inr (I2 hz).1

/-- C2 on a concrete run of eight operations from a fresh binding, in which
the native layer returns the handles 5 and 6. -/
theorem run_handle_lifetime_witness :
    (destroyedHandles (run UOdinCaptureMedia.fresh exampleSteps).2).Nodup ∧
    (∀ a b, (run UOdinCaptureMedia.fresh exampleSteps).2 = a ++ b →
      ∀ h ∈ destroyedHandles a, h ∉ pushedHandles b) ∧
    ((run UOdinCaptureMedia.fresh exampleSteps).1.stream_handle_ = 0 ∨
      (run UOdinCaptureMedia.fresh exampleSteps).1.stream_handle_
        ∉ destroyedHandles (run UOdinCaptureMedia.fresh exampleSteps).2) :=
  run_handle_lifetime UOdinCaptureMedia.fresh exampleSteps rfl (by decide)

end Odin
